import Mathlib

/-!
# Moodify — verification of the query-to-recommendation engine spec

Shallow embedding of the recommendation flow of the Moodify repository.

The client side is embedded from the JavaScript sources:
* `src/moodify-web/src/components/RecommendationGridV2.jsx` (the V2 grid:
  request issuing, lane storage, selection, drag-and-drop reordering),
* `src/frontend/src/App.jsx` and `src/moodify-web/src/App.jsx`
  (`generateRecs`, the legacy request path),
* `src/frontend/src/components/recommendations/RecommendationGrid.jsx`
  (the legacy grid's lane keys).

The backend engine (QueryAnalyzer, ModelRouter, HistoryRecommender,
DiscoveryRecommender, ResultAssembler) is not present in the sources;
where a claim depends on it, the relevant parts are modelled from the
spec and the corresponding definitions say so in their doc comments.

JavaScript numbers are modelled by `ℚ`, JS arrays by `List`, absent or
`null` JSON fields by `Option`/an explicit `null` constructor, and the
truthiness collapse of `undefined`/`false` selection flags by `Bool`.
-/

namespace Moodify

/-- An individual track object as the grid components read it: the fields
accessed in `RecommendationGridV2.jsx` (`id`, `name`, `artists`, `album`,
`album_image`, `duration_ms`, `match_score`, `popularity`, `selected`).
`selected` starts out absent in JS (`undefined`); since every read of it is
a truthiness test (`track.selected ? … : …`, `!track.selected`,
`filter(track => track.selected)`), absent and `false` are observationally
identical and the flag is modelled as `Bool`. -/
structure Track where
  id : String
  name : String
  artists : List String
  album : String
  album_image : String
  duration_ms : ℚ
  match_score : ℚ
  popularity : ℚ
  selected : Bool
  deriving Repr, DecidableEq

/-- The analysis object the UI reads (`recs.analysis.…` in
`src/moodify-web/src/App.jsx`): detected genres/moods, confidence, text. -/
structure Analysis where
  detected_genres : List String
  detected_moods : List String
  confidence : ℚ
  analysis_text : String
  deriving Repr, DecidableEq

/-- A JSON value occurring in a recommendation response: `null`, an array
of tracks, or an analysis object. -/
inductive JsonValue where
  | null
  | arr (tracks : List Track)
  | obj (a : Analysis)
  deriving Repr, DecidableEq

/-- A parsed recommendation response body: a finite map from field names to
JSON values, as produced by `await response.json()`. -/
structure JsonResponse where
  fields : List (String × JsonValue)
  deriving Repr, DecidableEq

/-- Field lookup on a response object: `data.someKey`, `none` meaning the
key is absent (`undefined` in JS). -/
def JsonResponse.get (r : JsonResponse) (k : String) : Option JsonValue :=
  (r.fields.find? (fun p => p.1 = k)).map Prod.snd

/-- `data.key || []` on a field expected to hold a lane array: an absent
field (`undefined`) and an explicit `null` are both falsy in JS and fall
back to the empty array; a present array passes through.  (A truthy
non-array value would pass through unchanged in JS; the recommendation
contract only puts arrays under the lane keys, and the lane-shape theorems
below carry that hypothesis explicitly.) -/
def jsOrEmptyList : Option JsonValue → List Track
  | some (JsonValue.arr tracks) => tracks
  | _ => []

/-- Whitespace as recognised by `String.prototype.trim` (ASCII subset:
space, tab, newline, carriage return, vertical tab, form feed). -/
def isJsWhitespace (c : Char) : Bool :=
  c = ' ' || c = '\t' || c = '\n' || c = '\r' || c = '\x0b' || c = '\x0c'

/-- `query.trim()`: strip whitespace from both ends of the string. -/
def jsTrim (s : String) : String :=
  String.mk (((s.data.dropWhile isJsWhitespace).reverse.dropWhile isJsWhitespace).reverse)

/-! ## RecommendationGridV2 component state and request flow

From `src/moodify-web/src/components/RecommendationGridV2.jsx`. -/

/-- The `useState` cells of `RecommendationGridV2` relevant to the
recommendation flow, together with the `query` prop. -/
structure V2State where
  query : String
  historyRecs : List Track
  newRecs : List Track
  loading : Bool
  error : String
  analysis : Option JsonValue
  hasGenerated : Bool
  deriving Repr, DecidableEq

/-- The initial component state for a given query prop: lanes `[]`,
no error, `analysis` null, `hasGenerated` false. -/
def V2State.init (query : String) : V2State :=
  { query := query, historyRecs := [], newRecs := [], loading := false
    error := "", analysis := none, hasGenerated := false }

/-- The JSON body sent by `generateRecommendations`
(`body: JSON.stringify({ query: query.trim() })`, line 58). -/
def recommendV2Body (query : String) : List (String × String) :=
  [("query", jsTrim query)]

/-- `generateRecommendations` (lines 37–90): guard
`if (!query.trim() || hasGenerated) return;`, then issue the POST and on
completion store `data.user_history_recs || []`, `data.new_recs || []` and
`data.analysis`, or the error message on failure.  The network outcome is
passed in as `resp`; the returned `Bool` records whether a fetch was
issued. -/
def generateRecommendations (resp : Except String JsonResponse) (s : V2State) :
    V2State × Bool :=
  if jsTrim s.query = "" || s.hasGenerated then (s, false)
  else
    match resp with
    | Except.ok data =>
        ({ s with
            loading := false
            error := ""
            hasGenerated := true
            historyRecs := jsOrEmptyList (data.get "user_history_recs")
            newRecs := jsOrEmptyList (data.get "new_recs")
            analysis := data.get "analysis" }, true)
    | Except.error e =>
        ({ s with loading := false, error := e, hasGenerated := true }, true)

/-- The `useEffect(…, [query])` reset (lines 93–99): when the query prop
changes, clear `hasGenerated`, both lanes, the error and the analysis. -/
def onQueryChange (newQuery : String) (s : V2State) : V2State :=
  { s with
      query := newQuery
      hasGenerated := false
      historyRecs := []
      newRecs := []
      error := ""
      analysis := none }

/-- `triggerGeneration` (lines 104–108):
`if (query.trim() && !hasGenerated) generateRecommendations();`. -/
def triggerGeneration (resp : Except String JsonResponse) (s : V2State) :
    V2State × Bool :=
  if jsTrim s.query ≠ "" && !s.hasGenerated then generateRecommendations resp s
  else (s, false)

/-- The per-lane update of `handleTrackToggle` (lines 111–129): map over the
lane, flipping `selected` on the track whose `id` matches and leaving every
other track untouched. -/
def toggleTrack (trackId : String) (lane : List Track) : List Track :=
  lane.map (fun track =>
    if track.id = trackId then { track with selected := !track.selected }
    else track)

/-- `handleTrackToggle(trackId, source)`: `source === 'history'` updates the
history lane, anything else the discoveries lane. -/
def handleTrackToggle (trackId : String) (source : String) (s : V2State) : V2State :=
  if source = "history" then { s with historyRecs := toggleTrack trackId s.historyRecs }
  else { s with newRecs := toggleTrack trackId s.newRecs }

/-- The per-lane update of `handleTrackReorder` (lines 132–148):
`const [removed] = newList.splice(fromIndex, 1); newList.splice(toIndex, 0, removed);`.
For an in-bounds `fromIndex` the first splice removes the element at
`fromIndex` and the second inserts it back at `toIndex`.  (With an
out-of-bounds `fromIndex` the JS code would insert `undefined`; that case
has no counterpart in the typed model and is mapped to the erased list.) -/
def reorderLane (lane : List Track) (fromIndex toIndex : ℕ) : List Track :=
  match lane[fromIndex]? with
  | some removed => (lane.eraseIdx fromIndex).insertIdx toIndex removed
  | none => lane.eraseIdx fromIndex

/-- `handleTrackReorder(source, fromIndex, toIndex)`: reorder within the lane
selected by `source`. -/
def handleTrackReorder (source : String) (fromIndex toIndex : ℕ) (s : V2State) :
    V2State :=
  if source = "history" then
    { s with historyRecs := reorderLane s.historyRecs fromIndex toIndex }
  else { s with newRecs := reorderLane s.newRecs fromIndex toIndex }

/-- `getAllSelectedTracks` (lines 151–155): the selected tracks of the
history lane followed by the selected tracks of the discoveries lane. -/
def getAllSelectedTracks (s : V2State) : List Track :=
  (s.historyRecs.filter (fun track => track.selected))
    ++ (s.newRecs.filter (fun track => track.selected))

/-- `getSelectedTrackIds` (lines 158–160): the ids of the selected tracks. -/
def getSelectedTrackIds (s : V2State) : List String :=
  (getAllSelectedTracks s).map (fun track => track.id)

/-- The abort-timer constant of `generateRecommendations`
(`setTimeout(() => controller.abort(), 120000)`, line 46). -/
def recommendV2TimeoutMs : ℕ := 120000

/-- The width of the confidence bar rendered by `TrackItem` for a
history-lane track (line 375):
`Math.min((track.match_score / 10) * 100, 100)`. -/
def confidenceFillWidth (matchScore : ℚ) : ℚ :=
  min (matchScore / 10 * 100) 100

/-! ## Legacy request path: `generateRecs` in both App.jsx files

`src/frontend/src/App.jsx` (lines 247–312) and
`src/moodify-web/src/App.jsx` carry the same `generateRecs` callback:
guard on the trimmed mood, guard on the token, issue the POST with a 30 s
abort timer, store the whole response in `recs` and, when
`data.tracks?.length > 0`, the mapped ids in `trackIds`. -/

/-- The pieces of the App component state that `generateRecs` touches. -/
structure AppState where
  mood : String
  spotifyToken : String
  isGenerating : Bool
  recsErr : String
  recs : Option JsonResponse
  trackIds : List String
  deriving Repr, DecidableEq

/-- The JSON body sent by `generateRecs`
(`{ query: mood.trim(), create_playlist: false }`). -/
def generateRecsBody (mood : String) : List (String × String) :=
  [("query", jsTrim mood), ("create_playlist", "false")]

/-- The abort-timer constant of `generateRecs`
(`setTimeout(() => controller.abort(), 30000)` in both App.jsx files). -/
def generateRecsTimeoutMs : ℕ := 30000

/-- `generateRecs`: `if (!mood.trim()) return;`, then
`if (!spotifyToken) { setRecsErr(…); setIsGenerating(false); return; }`,
then reset `recs`/`trackIds`, fetch, and on success `setRecs(data)` and
`if (data.tracks?.length > 0) setTrackIds(data.tracks.map(t => t.id))`.
An empty token string models a missing token (falsy in JS).  The returned
`Bool` records whether a fetch was issued. -/
def generateRecs (resp : Except String JsonResponse) (s : AppState) :
    AppState × Bool :=
  if jsTrim s.mood = "" then (s, false)
  else if s.spotifyToken = "" then
    ({ s with recsErr := "Please wait for authentication to complete"
              isGenerating := false }, false)
  else
    match resp with
    | Except.ok data =>
        let tracks := jsOrEmptyList (data.get "tracks")
        ({ s with
            isGenerating := false
            recsErr := ""
            recs := some data
            trackIds :=
              if tracks.length > 0 then tracks.map (fun t => t.id) else [] }, true)
    | Except.error e =>
        ({ s with isGenerating := false, recsErr := e, recs := none
                  trackIds := [] }, true)

/-! ## Legacy grid lane keys

`src/frontend/src/components/recommendations/RecommendationGrid.jsx`
renders its sections from `recommendations.from_history` (lines 42–56) and
`recommendations.new_discoveries` (lines 58–72); each section is shown only
when `…?.length > 0`, so the rendered track list is the array under the key
when present and non-empty, and empty otherwise. -/

/-- The tracks the legacy grid renders in its "From Your History" section. -/
def legacyFromHistory (recommendations : JsonResponse) : List Track :=
  jsOrEmptyList (recommendations.get "from_history")

/-- The tracks the legacy grid renders in its "New Discoveries" section. -/
def legacyNewDiscoveries (recommendations : JsonResponse) : List Track :=
  jsOrEmptyList (recommendations.get "new_discoveries")

/-- The response keys the recommendation contract names:
`user_history_recs`, `new_recs`, `analysis`. -/
def contractKeys : List String := ["user_history_recs", "new_recs", "analysis"]

/-! ## Backend engine, modelled from the spec

The repository's sources contain only the client; the engine itself
(spec §4.4–§4.6) is modelled from the spec's words. -/

/-- Modelled from the spec: the candidate resolution filter of
DiscoveryRecommender (§4.5) — "skipping any hit whose id is already in the
exclusion set or already selected in this batch (dedupe)" — and the
deduplication step of ResultAssembler (§4.6).  Walks the candidates keeping
the first track per id and dropping every id in `seen`. -/
def filterNewById (seen : List String) : List Track → List Track
  | [] => []
  | t :: ts =>
      if t.id ∈ seen then filterNewById seen ts
      else t :: filterNewById (t.id :: seen) ts

/-- Modelled from the spec: a RecommendationResult (§3) — the two lanes
plus the MoodProfile analysis. -/
structure RecommendationResult where
  user_history_recs : List Track
  new_recs : List Track
  analysis : Analysis
  deriving Repr, DecidableEq

/-- Modelled from the spec: ResultAssembler (§4.6) — "merges, deduplicates,
caps list sizes, and packages the two-lane result plus analysis metadata";
the discovery lane "excludes any track id already present in the user's
history sample" (§3, §4.5). -/
def assembleResult (historySample discoveryCandidates : List Track)
    (historyCap discoveryCap : ℕ) (analysis : Analysis) : RecommendationResult :=
  { user_history_recs := (filterNewById [] historySample).take historyCap
    new_recs :=
      (filterNewById (historySample.map (fun t => t.id)) discoveryCandidates).take
        discoveryCap
    analysis := analysis }

/-! ## Scoring, modelled from the spec (§4.4, §4.5) -/

/-- Audio features of a track / target point (energy, valence, tempo,
danceability), each on its bounded scale (§3). -/
structure AudioFeatures where
  energy : ℚ
  valence : ℚ
  tempo : ℚ
  danceability : ℚ
  deriving Repr, DecidableEq

/-- A closed numeric interval, one per audio feature of the MoodProfile's
target range (§3). -/
structure FeatureInterval where
  lo : ℚ
  hi : ℚ
  deriving Repr, DecidableEq

/-- The MoodProfile's target audio-feature range (§3). -/
structure TargetRange where
  energy : FeatureInterval
  valence : FeatureInterval
  tempo : FeatureInterval
  danceability : FeatureInterval
  deriving Repr, DecidableEq

/-- Distance from a value to an interval: `0` inside the interval, the gap
to the nearer endpoint outside. -/
def distToInterval (x : ℚ) (i : FeatureInterval) : ℚ :=
  max 0 (max (i.lo - x) (x - i.hi))

/-- Total distance between a track's audio features and the target range:
the sum of the per-feature interval distances. -/
def featureDistance (f : AudioFeatures) (r : TargetRange) : ℚ :=
  distToInterval f.energy r.energy + distToInterval f.valence r.valence
    + distToInterval f.tempo r.tempo + distToInterval f.danceability r.danceability

/-- Modelled from the spec: the query-similarity component of
HistoryRecommender (§4.4) — "inverse distance between track's audio
features and MoodProfile's target range, normalized to [0,10]". -/
def querySimilarity (f : AudioFeatures) (r : TargetRange) : ℚ :=
  10 / (1 + featureDistance f r)

/-- Modelled from the spec: the profile-similarity component (§4.4) —
"1 if the track's genre overlaps the user's top genres, else a decayed
partial score"; the decay factor is one of the empirically tuned,
configurable parameters (§9). -/
def profileSimilarity (trackGenres topGenres : List String) (decay : ℚ) : ℚ :=
  if trackGenres.inter topGenres ≠ [] then 1 else decay

/-- Modelled from the spec: the history-lane match score (§4.4) —
"match_score = 0.7 × query-similarity + 0.3 × profile-similarity". -/
def historyMatchScore (f : AudioFeatures) (r : TargetRange)
    (trackGenres topGenres : List String) (decay : ℚ) : ℚ :=
  7 / 10 * querySimilarity f r
    + 3 / 10 * profileSimilarity trackGenres topGenres decay

/-- Modelled from the spec: the capped heuristic score of tracks lacking
audio features (§4.4) — "scored using genre/name heuristics only, with a
capped maximum score"; the raw heuristic is clamped into `[0, cap]`. -/
def heuristicMatchScore (cap rawHeuristic : ℚ) : ℚ :=
  max 0 (min cap rawHeuristic)

/-- Modelled from the spec: the discovery-lane match score (§4.5) —
"match_score from catalog popularity scaled to [0,10]"; popularity is
0–100 (§3). -/
def discoveryMatchScore (popularity : ℚ) : ℚ :=
  popularity / 10

/-- The `AbortController` state as the request code uses it: its signal is
passed to `fetch`, and `controller.abort()` aborts the in-flight request. -/
structure RequestController where
  aborted : Bool
  deriving Repr, DecidableEq

/-- The abort-timer callback `() => controller.abort()`
(`RecommendationGridV2.jsx` line 46, `generateRecs` in both App.jsx files)
run when the timeout expires. -/
def timeoutExpiryAction (c : RequestController) : RequestController :=
  { c with aborted := true }

/-- A recommendation request as issued by one client call site: the abort
timer attached to its fetch, `none` when the fetch carries no controller,
no timer and no signal. -/
structure IssuedRequest where
  abortTimerMs : Option ℕ
  deriving Repr, DecidableEq

/-- The request issued by `generateRecommendations`
(`RecommendationGridV2.jsx` lines 45–60): an `AbortController` whose signal
is passed to the fetch, with `setTimeout(() => controller.abort(), 120000)`. -/
def recommendV2Request : IssuedRequest :=
  { abortTimerMs := some recommendV2TimeoutMs }

/-- The request issued by `generateRecs` in both App.jsx files: an
`AbortController` whose signal is passed to the fetch, with
`setTimeout(() => controller.abort(), 30000)`. -/
def generateRecsRequest : IssuedRequest :=
  { abortTimerMs := some generateRecsTimeoutMs }

/-- The request issued by `Dashboard.handleSearch`
(`src/frontend/src/components/dashboard/AnalyticsOverview.jsx`, second
document, lines 131–149): a plain `fetch` POSTing `{ query }` to
`/recommend-v2` with no `AbortController`, no timer and no signal. -/
def dashboardSearchRequest : IssuedRequest :=
  { abortTimerMs := none }

/-- The client call sites that POST a recommendation request to
`/recommend-v2`. -/
def recommendRequestSites : List IssuedRequest :=
  [recommendV2Request, generateRecsRequest, dashboardSearchRequest]

/-! ## Helper lemmas -/

/-- Trimming a string that consists only of whitespace yields the empty
string. -/
lemma jsTrim_eq_empty (s : String) (h : s.data.all isJsWhitespace) :
    jsTrim s = "" := by
  have h1 : s.data.dropWhile isJsWhitespace = [] := by
    rw [List.dropWhile_eq_nil_iff]
    intro x hx
    exact List.all_eq_true.mp h x hx
  simp [jsTrim, h1]

end Moodify

namespace Moodify

/-- C4: a query that is empty or consists only of whitespace issues no
network call — both `generateRecommendations` (RecommendationGridV2) and
`generateRecs` (App.jsx) return, with the state unchanged and no fetch
issued, before performing any fetch. -/
theorem empty_query_issues_no_fetch (resp resp2 : Except String JsonResponse)
    (s : V2State) (a : AppState)
    (hq : s.query.data.all isJsWhitespace)
    (hm : a.mood.data.all isJsWhitespace) :
    generateRecommendations resp s = (s, false)
      ∧ generateRecs resp2 a = (a, false) := by
  constructor
  · simp [generateRecommendations, jsTrim_eq_empty _ hq]
  · simp [generateRecs, jsTrim_eq_empty _ hm]

/-- Witness for `empty_query_issues_no_fetch` at the whitespace-only
query `" \t "`. -/
theorem empty_query_issues_no_fetch_witness :
    generateRecommendations (Except.error "boom") (V2State.init " \t ")
        = (V2State.init " \t ", false)
      ∧ generateRecs (Except.error "boom")
          { mood := " \t ", spotifyToken := "tok", isGenerating := false
            recsErr := "", recs := none, trackIds := [] }
        = ({ mood := " \t ", spotifyToken := "tok", isGenerating := false
             recsErr := "", recs := none, trackIds := [] }, false) :=
  empty_query_issues_no_fetch _ _ _ _ (by decide) (by decide)

/-- C5: generating recommendations is idempotent for a fixed query — after
one completed generation the `hasGenerated` flag is set, so triggering
generation again (via `triggerGeneration` or `generateRecommendations`)
issues no new request and leaves the whole state, in particular both
lanes, unchanged; only the query-change effect resets the flag. -/
theorem generation_idempotent (resp resp2 : Except String JsonResponse)
    (s s' : V2State) (h : generateRecommendations resp s = (s', true)) :
    s'.hasGenerated = true
      ∧ triggerGeneration resp2 s' = (s', false)
      ∧ generateRecommendations resp2 s' = (s', false)
      ∧ (∀ tid src, (handleTrackToggle tid src s').hasGenerated = true)
      ∧ (∀ src fi ti, (handleTrackReorder src fi ti s').hasGenerated = true)
      ∧ ∀ q, (onQueryChange q s').hasGenerated = false := by
  have hgen : s'.hasGenerated = true := by
    unfold generateRecommendations at h
    split at h
    · exact absurd (congrArg Prod.snd h) (by simp)
    · split at h
      · injection h with h1 _
        rw [← h1]
      · injection h with h1 _
        rw [← h1]
  refine ⟨hgen, ?_, ?_, ?_, ?_, fun q => rfl⟩
  · simp [triggerGeneration, hgen]
  · simp [generateRecommendations, hgen]
  · intro tid src
    by_cases hsrc : src = "history" <;> simp [handleTrackToggle, hsrc, hgen]
  · intro src fi ti
    by_cases hsrc : src = "history" <;> simp [handleTrackReorder, hsrc, hgen]

/-- Witness for `generation_idempotent`: one successful generation for a
concrete query, then a second trigger is a no-op. -/
theorem generation_idempotent_witness :
    ((generateRecommendations (Except.ok (JsonResponse.mk []))
        (V2State.init "chill")).1.hasGenerated = true)
      ∧ triggerGeneration (Except.error "later")
          (generateRecommendations (Except.ok (JsonResponse.mk []))
            (V2State.init "chill")).1
        = ((generateRecommendations (Except.ok (JsonResponse.mk []))
            (V2State.init "chill")).1, false) := by
  have h := generation_idempotent (Except.ok (JsonResponse.mk []))
    (Except.error "later") (V2State.init "chill")
    (generateRecommendations (Except.ok (JsonResponse.mk []))
      (V2State.init "chill")).1 (by decide)
  exact ⟨h.1, h.2.1⟩

/-- C6 (counterexample): not every recommendation request runs under an
abort timer — the `Dashboard.handleSearch` call site POSTs to
`/recommend-v2` with a plain fetch carrying no abort timer at all, so no
constant in [30000 ms, 120000 ms] is passed when issuing that request. -/
theorem request_timeout_counterexample :
    dashboardSearchRequest ∈ recommendRequestSites
      ∧ ¬ ∃ t, dashboardSearchRequest.abortTimerMs = some t
          ∧ 30000 ≤ t ∧ t ≤ 120000 := by
  refine ⟨by decide, ?_⟩
  rintro ⟨t, ht, -, -⟩
  exact Option.noConfusion ht

/-- C6 (amended): the two request paths that do attach an abort timer —
`generateRecommendations` in RecommendationGridV2 (120000 ms) and
`generateRecs` in both App.jsx files (30000 ms) — use constants within
[30000 ms, 120000 ms], and on expiry the timer's callback aborts the
in-flight request; but the `Dashboard.handleSearch` request site issues
its fetch with no abort timer, so that request has no top-level timeout. -/
theorem request_timeout_bounds :
    (recommendV2Request.abortTimerMs = some recommendV2TimeoutMs
        ∧ 30000 ≤ recommendV2TimeoutMs ∧ recommendV2TimeoutMs ≤ 120000)
      ∧ (generateRecsRequest.abortTimerMs = some generateRecsTimeoutMs
          ∧ 30000 ≤ generateRecsTimeoutMs ∧ generateRecsTimeoutMs ≤ 120000)
      ∧ (∀ c : RequestController, (timeoutExpiryAction c).aborted = true)
      ∧ dashboardSearchRequest.abortTimerMs = none := by
  exact ⟨⟨rfl, by decide, by decide⟩, ⟨rfl, by decide, by decide⟩,
    fun c => rfl, rfl⟩

/-- C7: after a successful recommendation response is processed, both lane
states hold exactly the response's lane arrays with `[]` substituted for a
missing (`undefined`) or `null` field — never `null`/`undefined` lanes. -/
theorem success_lanes_always_arrays (data : JsonResponse) (s s' : V2State)
    (h : generateRecommendations (Except.ok data) s = (s', true)) :
    s'.historyRecs = jsOrEmptyList (data.get "user_history_recs")
      ∧ s'.newRecs = jsOrEmptyList (data.get "new_recs")
      ∧ ((data.get "user_history_recs" = none
            ∨ data.get "user_history_recs" = some JsonValue.null)
          → s'.historyRecs = [])
      ∧ ((data.get "new_recs" = none
            ∨ data.get "new_recs" = some JsonValue.null)
          → s'.newRecs = []) := by
  unfold generateRecommendations at h
  split at h
  · exact absurd (congrArg Prod.snd h) (by simp)
  · have hs : s' = { s with
        loading := false, error := "", hasGenerated := true
        historyRecs := jsOrEmptyList (data.get "user_history_recs")
        newRecs := jsOrEmptyList (data.get "new_recs")
        analysis := data.get "analysis" } :=
      (congrArg Prod.fst h).symm
    subst hs
    refine ⟨rfl, rfl, ?_, ?_⟩
    · rintro (h9 | h9) <;> simp [h9, jsOrEmptyList]
    · rintro (h9 | h9) <;> simp [h9, jsOrEmptyList]

/-- Witness for `success_lanes_always_arrays`: a response with a present
history lane and no `new_recs` field stores the array and the explicit
empty list. -/
theorem success_lanes_always_arrays_witness :
    (generateRecommendations
        (Except.ok (JsonResponse.mk
          [("user_history_recs",
            JsonValue.arr [Track.mk "t1" "Song" [] "" "" 0 0 0 false]),
           ("new_recs", JsonValue.null)]))
        (V2State.init "chill")).1.newRecs = [] := by
  have h := success_lanes_always_arrays
    (JsonResponse.mk
      [("user_history_recs",
        JsonValue.arr [Track.mk "t1" "Song" [] "" "" 0 0 0 false]),
       ("new_recs", JsonValue.null)])
    (V2State.init "chill") _ rfl
  exact h.2.2.2 (Or.inr (by decide))

/-- C8: `getSelectedTrackIds` returns exactly the ids of the tracks whose
selected flag is set — the selected history-lane tracks first, then the
selected discovery-lane tracks, each group in its list order (the filter
over the concatenated lanes), every returned id belongs to some selected
track, and (when track ids are unique across the lanes, the invariant the
lanes satisfy) no unselected track's id appears. -/
theorem selected_ids_exact (s : V2State) (x : String)
    (hnodup : ((s.historyRecs ++ s.newRecs).map (fun t => t.id)).Nodup) :
    getSelectedTrackIds s =
        ((s.historyRecs ++ s.newRecs).filter (fun t => t.selected)).map
          (fun t => t.id)
      ∧ (x ∈ getSelectedTrackIds s ↔
          ∃ t, (t ∈ s.historyRecs ++ s.newRecs) ∧ t.selected = true ∧ t.id = x)
      ∧ ∀ t, t ∈ s.historyRecs ++ s.newRecs → t.selected = false →
          t.id ∉ getSelectedTrackIds s := by
  have hmem : ∀ y : String, y ∈ getSelectedTrackIds s ↔
      ∃ t, (t ∈ s.historyRecs ++ s.newRecs) ∧ t.selected = true ∧ t.id = y := by
    intro y
    simp only [getSelectedTrackIds, getAllSelectedTracks, List.mem_map,
      List.mem_append, List.mem_filter]
    constructor
    · rintro ⟨t, hcase, hid⟩
      rcases hcase with ⟨htm, hsel⟩ | ⟨htm, hsel⟩
      · exact ⟨t, Or.inl htm, hsel, hid⟩
      · exact ⟨t, Or.inr htm, hsel, hid⟩
    · rintro ⟨t, htm | htm, hsel, hid⟩
      · exact ⟨t, Or.inl ⟨htm, hsel⟩, hid⟩
      · exact ⟨t, Or.inr ⟨htm, hsel⟩, hid⟩
  refine ⟨?_, hmem x, ?_⟩
  · simp [getSelectedTrackIds, getAllSelectedTracks, List.filter_append]
  · intro t htm hsel hin
    obtain ⟨t', htm', hsel', hid'⟩ := (hmem t.id).mp hin
    have : t' = t := List.inj_on_of_nodup_map hnodup htm' htm hid'
    rw [this] at hsel'
    rw [hsel] at hsel'
    exact Bool.false_ne_true hsel'

/-- Witness for `selected_ids_exact`: two lanes with one selected track
each; the ids come out selected-only, history first. -/
theorem selected_ids_exact_witness :
    getSelectedTrackIds
        { V2State.init "q" with
            historyRecs := [Track.mk "h1" "A" [] "" "" 0 0 0 true,
                            Track.mk "h2" "B" [] "" "" 0 0 0 false]
            newRecs := [Track.mk "n1" "C" [] "" "" 0 0 0 true] }
      = ((([Track.mk "h1" "A" [] "" "" 0 0 0 true,
            Track.mk "h2" "B" [] "" "" 0 0 0 false] : List Track)
            ++ [Track.mk "n1" "C" [] "" "" 0 0 0 true]).filter
          (fun t => t.selected)).map (fun t => t.id) :=
  (selected_ids_exact
    { V2State.init "q" with
        historyRecs := [Track.mk "h1" "A" [] "" "" 0 0 0 true,
                        Track.mk "h2" "B" [] "" "" 0 0 0 false]
        newRecs := [Track.mk "n1" "C" [] "" "" 0 0 0 true] }
    "h1" (by decide)).1

/-- Toggling a lane restricted to `getElem?`: the mapped per-track
function. -/
lemma toggleTrack_getElem (trackId : String) (l : List Track) (i : ℕ) :
    (toggleTrack trackId l)[i]? = (l[i]?).map (fun track =>
      if track.id = trackId then { track with selected := !track.selected }
      else track) := by
  simp [toggleTrack]

/-- Toggling the same id twice restores the lane. -/
lemma toggleTrack_involutive (trackId : String) (l : List Track) :
    toggleTrack trackId (toggleTrack trackId l) = l := by
  induction l with
  | nil => rfl
  | cons t ts ih =>
      simp only [toggleTrack] at ih
      cases t with
      | mk id name artists album img dur ms pop sel =>
          by_cases h : id = trackId <;> simp [toggleTrack, h, ih]

/-- C9: `handleTrackToggle(trackId, source)` changes only the selected flag
of the matching track in the named lane — every other field of that track
is kept (the update is literally `{ track with selected := not selected }`),
every track with a different id is unchanged at its position, the other
lane is untouched, any non-`'history'` source acts like the discoveries
lane, and applying the same toggle twice restores the original state. -/
theorem toggle_frame (trackId : String) (s : V2State) (i : ℕ) :
    (handleTrackToggle trackId "history" s).newRecs = s.newRecs
      ∧ (handleTrackToggle trackId "new" s).historyRecs = s.historyRecs
      ∧ (∀ t, s.historyRecs[i]? = some t → t.id ≠ trackId →
          (handleTrackToggle trackId "history" s).historyRecs[i]? = some t)
      ∧ (∀ t, s.historyRecs[i]? = some t → t.id = trackId →
          (handleTrackToggle trackId "history" s).historyRecs[i]? =
            some { t with selected := !t.selected })
      ∧ (∀ t, s.newRecs[i]? = some t → t.id ≠ trackId →
          (handleTrackToggle trackId "new" s).newRecs[i]? = some t)
      ∧ (∀ t, s.newRecs[i]? = some t → t.id = trackId →
          (handleTrackToggle trackId "new" s).newRecs[i]? =
            some { t with selected := !t.selected })
      ∧ handleTrackToggle trackId "history" (handleTrackToggle trackId "history" s)
          = s
      ∧ handleTrackToggle trackId "new" (handleTrackToggle trackId "new" s) = s
      ∧ ∀ src : String, src ≠ "history" →
          handleTrackToggle trackId src s = handleTrackToggle trackId "new" s := by
  refine ⟨?_, ?_, ?_, ?_, ?_, ?_, ?_, ?_, ?_⟩
  · simp [handleTrackToggle]
  · simp [handleTrackToggle]
  · intro t ht hne
    simp [handleTrackToggle, toggleTrack_getElem, ht, hne]
  · intro t ht heq
    simp [handleTrackToggle, toggleTrack_getElem, ht, heq]
  · intro t ht hne
    simp [handleTrackToggle, toggleTrack_getElem, ht, hne]
  · intro t ht heq
    simp [handleTrackToggle, toggleTrack_getElem, ht, heq]
  · cases s with
    | mk q h n l e a g => simp [handleTrackToggle, toggleTrack_involutive]
  · cases s with
    | mk q h n l e a g => simp [handleTrackToggle, toggleTrack_involutive]
  · intro src hsrc
    simp [handleTrackToggle, hsrc]

/-- Witness for `toggle_frame`: toggling the only history track flips just
its selected flag. -/
theorem toggle_frame_witness :
    (handleTrackToggle "t1" "history"
        { V2State.init "q" with
            historyRecs := [Track.mk "t1" "Song" [] "" "" 0 0 0 false] }).historyRecs[0]?
      = some (Track.mk "t1" "Song" [] "" "" 0 0 0 true) :=
  (toggle_frame "t1"
    { V2State.init "q" with
        historyRecs := [Track.mk "t1" "Song" [] "" "" 0 0 0 false] }
    0).2.2.2.1 _ rfl rfl

/-- A list is a permutation of its element at `i` consed onto the list with
index `i` erased. -/
lemma perm_getElem_cons_eraseIdx (l : List Track) (i : ℕ) (h : i < l.length) :
    List.Perm l (l[i] :: l.eraseIdx i) := by
  conv_lhs => rw [← List.take_append_drop i l, List.drop_eq_getElem_cons h]
  rw [List.eraseIdx_eq_take_drop_succ]
  exact List.perm_middle

/-- The reordering splice on one lane: with both indices in bounds it keeps
the length, permutes the lane, and puts the element formerly at `fromIndex`
at `toIndex`. -/
lemma reorderLane_spec (l : List Track) (fi ti : ℕ)
    (hf : fi < l.length) (ht : ti < l.length) :
    (reorderLane l fi ti).length = l.length
      ∧ List.Perm (reorderLane l fi ti) l
      ∧ (reorderLane l fi ti)[ti]? = l[fi]? := by
  have hget : l[fi]? = some l[fi] := List.getElem?_eq_getElem hf
  have hr : reorderLane l fi ti = (l.eraseIdx fi).insertIdx ti l[fi] := by
    simp [reorderLane, hget]
  have hlen_erase : (l.eraseIdx fi).length + 1 = l.length :=
    List.length_eraseIdx_add_one hf
  have hti : ti ≤ (l.eraseIdx fi).length := by omega
  have hlen : (reorderLane l fi ti).length = l.length := by
    rw [hr, List.length_insertIdx _ _ hti, hlen_erase]
  refine ⟨hlen, ?_, ?_⟩
  · rw [hr]
    exact (List.perm_insertIdx _ _ hti).trans
      (perm_getElem_cons_eraseIdx l fi hf).symm
  · have hb : ti < (reorderLane l fi ti).length := by omega
    rw [hr] at hb
    rw [hr, List.getElem?_eq_getElem hb, hget]
    exact congrArg some (List.getElem_insertIdx_self _ _ _ hti)

/-- C10: for in-bounds indices, `handleTrackReorder` produces a permutation
of the targeted lane — same length, same multiset of tracks — with the
track formerly at `fromIndex` now located at `toIndex`, and leaves the
other lane untouched. -/
theorem reorder_is_permutation (s : V2State) (fi ti : ℕ) :
    (fi < s.historyRecs.length → ti < s.historyRecs.length →
        ((handleTrackReorder "history" fi ti s).historyRecs.length
            = s.historyRecs.length
          ∧ List.Perm (handleTrackReorder "history" fi ti s).historyRecs
              s.historyRecs
          ∧ (∀ t, s.historyRecs[fi]? = some t →
              (handleTrackReorder "history" fi ti s).historyRecs[ti]? = some t)
          ∧ (handleTrackReorder "history" fi ti s).newRecs = s.newRecs))
      ∧ (fi < s.newRecs.length → ti < s.newRecs.length →
          ((handleTrackReorder "new" fi ti s).newRecs.length = s.newRecs.length
            ∧ List.Perm (handleTrackReorder "new" fi ti s).newRecs s.newRecs
            ∧ (∀ t, s.newRecs[fi]? = some t →
                (handleTrackReorder "new" fi ti s).newRecs[ti]? = some t)
            ∧ (handleTrackReorder "new" fi ti s).historyRecs
                = s.historyRecs)) := by
  constructor
  · intro hf ht
    obtain ⟨h1, h2, h3⟩ := reorderLane_spec s.historyRecs fi ti hf ht
    refine ⟨by simpa [handleTrackReorder] using h1,
      by simpa [handleTrackReorder] using h2, ?_, by simp [handleTrackReorder]⟩
    intro t htv
    rw [htv] at h3
    simpa [handleTrackReorder] using h3
  · intro hf ht
    obtain ⟨h1, h2, h3⟩ := reorderLane_spec s.newRecs fi ti hf ht
    refine ⟨by simpa [handleTrackReorder] using h1,
      by simpa [handleTrackReorder] using h2, ?_, by simp [handleTrackReorder]⟩
    intro t htv
    rw [htv] at h3
    simpa [handleTrackReorder] using h3

/-- Witness for `reorder_is_permutation`: moving the head of a 3-track
history lane to the end places it at index 2. -/
theorem reorder_is_permutation_witness :
    (handleTrackReorder "history" 0 2
        { V2State.init "q" with
            historyRecs := [Track.mk "a" "A" [] "" "" 0 0 0 false,
                            Track.mk "b" "B" [] "" "" 0 0 0 false,
                            Track.mk "c" "C" [] "" "" 0 0 0 false] }).historyRecs[2]?
      = some (Track.mk "a" "A" [] "" "" 0 0 0 false) :=
  ((reorder_is_permutation
    { V2State.init "q" with
        historyRecs := [Track.mk "a" "A" [] "" "" 0 0 0 false,
                        Track.mk "b" "B" [] "" "" 0 0 0 false,
                        Track.mk "c" "C" [] "" "" 0 0 0 false] }
    0 2).1 (by decide) (by decide)).2.2.1 _ rfl

/-- The distance to an interval is nonnegative. -/
lemma distToInterval_nonneg (x : ℚ) (i : FeatureInterval) :
    0 ≤ distToInterval x i :=
  le_max_left 0 _

/-- The feature distance is nonnegative. -/
lemma featureDistance_nonneg (f : AudioFeatures) (r : TargetRange) :
    0 ≤ featureDistance f r := by
  unfold featureDistance
  have h1 := distToInterval_nonneg f.energy r.energy
  have h2 := distToInterval_nonneg f.valence r.valence
  have h3 := distToInterval_nonneg f.tempo r.tempo
  have h4 := distToInterval_nonneg f.danceability r.danceability
  linarith

/-- The query-similarity component lies in `[0, 10]`. -/
lemma querySimilarity_bounds (f : AudioFeatures) (r : TargetRange) :
    0 ≤ querySimilarity f r ∧ querySimilarity f r ≤ 10 := by
  have hd := featureDistance_nonneg f r
  have hpos : (0 : ℚ) < 1 + featureDistance f r := by linarith
  unfold querySimilarity
  constructor
  · exact div_nonneg (by norm_num) (le_of_lt hpos)
  · rw [div_le_iff₀ hpos]
    nlinarith

/-- The profile-similarity component lies in `[0, 1]` when the decay
parameter does. -/
lemma profileSimilarity_bounds (tg ug : List String) (decay : ℚ)
    (h0 : 0 ≤ decay) (h1 : decay ≤ 1) :
    0 ≤ profileSimilarity tg ug decay ∧ profileSimilarity tg ug decay ≤ 1 := by
  unfold profileSimilarity
  split
  · exact ⟨by norm_num, by norm_num⟩
  · exact ⟨h0, h1⟩

/-- C2: every match score the engine assigns lies in `[0, 10]` — the
weighted history score, the capped heuristic score for tracks lacking
audio features, and the popularity-scaled discovery score — and the
confidence-bar width the history lane renders from `match_score / 10`
scaled to a percentage never exceeds 100. -/
theorem match_score_in_range (f : AudioFeatures) (r : TargetRange)
    (trackGenres topGenres : List String) (decay cap raw pop m : ℚ)
    (hdecay0 : 0 ≤ decay) (hdecay1 : decay ≤ 1)
    (_hcap0 : 0 ≤ cap) (hcap10 : cap ≤ 10)
    (hpop0 : 0 ≤ pop) (hpop100 : pop ≤ 100) :
    (0 ≤ historyMatchScore f r trackGenres topGenres decay
        ∧ historyMatchScore f r trackGenres topGenres decay ≤ 10)
      ∧ (0 ≤ heuristicMatchScore cap raw ∧ heuristicMatchScore cap raw ≤ 10)
      ∧ (0 ≤ discoveryMatchScore pop ∧ discoveryMatchScore pop ≤ 10)
      ∧ confidenceFillWidth m ≤ 100 := by
  obtain ⟨hq0, hq10⟩ := querySimilarity_bounds f r
  obtain ⟨hp0, hp1⟩ := profileSimilarity_bounds trackGenres topGenres decay
    hdecay0 hdecay1
  refine ⟨⟨?_, ?_⟩, ⟨?_, ?_⟩, ⟨?_, ?_⟩, ?_⟩
  · unfold historyMatchScore
    nlinarith
  · unfold historyMatchScore
    nlinarith
  · exact le_max_left 0 _
  · exact max_le (by norm_num) (le_trans (min_le_left _ _) hcap10)
  · unfold discoveryMatchScore
    linarith
  · unfold discoveryMatchScore
    linarith
  · exact min_le_right _ _

/-- Witness for `match_score_in_range` at concrete scoring inputs. -/
theorem match_score_in_range_witness :
    (0 ≤ historyMatchScore ⟨1, 0, 1, 0⟩
          ⟨⟨0, 1⟩, ⟨0, 1⟩, ⟨0, 1⟩, ⟨0, 1⟩⟩ ["rock"] ["pop"] (1 / 2)
        ∧ historyMatchScore ⟨1, 0, 1, 0⟩
            ⟨⟨0, 1⟩, ⟨0, 1⟩, ⟨0, 1⟩, ⟨0, 1⟩⟩ ["rock"] ["pop"] (1 / 2) ≤ 10)
      ∧ (0 ≤ heuristicMatchScore 5 99 ∧ heuristicMatchScore 5 99 ≤ 10)
      ∧ (0 ≤ discoveryMatchScore 50 ∧ discoveryMatchScore 50 ≤ 10)
      ∧ confidenceFillWidth 7 ≤ 100 :=
  match_score_in_range ⟨1, 0, 1, 0⟩ ⟨⟨0, 1⟩, ⟨0, 1⟩, ⟨0, 1⟩, ⟨0, 1⟩⟩
    ["rock"] ["pop"] (1 / 2) 5 99 50 7
    (by norm_num) (by norm_num) (by norm_num) (by norm_num)
    (by norm_num) (by norm_num)

/-- C3 (amended): the recommendation request body carries the `query`
field on both request paths, and the V2 consumer's response processing
depends on the response only through the keys `user_history_recs`,
`new_recs` and `analysis` — two responses agreeing on those keys are
processed identically. -/
theorem recommend_request_contract (q : String) (r1 r2 : JsonResponse)
    (s : V2State) (h : ∀ k ∈ contractKeys, r1.get k = r2.get k) :
    (recommendV2Body q).lookup "query" = some (jsTrim q)
      ∧ (generateRecsBody q).lookup "query" = some (jsTrim q)
      ∧ generateRecommendations (Except.ok r1) s
          = generateRecommendations (Except.ok r2) s := by
  have h1 := h "user_history_recs" (by simp [contractKeys])
  have h2 := h "new_recs" (by simp [contractKeys])
  have h3 := h "analysis" (by simp [contractKeys])
  refine ⟨rfl, rfl, ?_⟩
  simp only [generateRecommendations, h1, h2, h3]

/-- Witness for `recommend_request_contract` at concrete responses that
agree on the contract keys. -/
theorem recommend_request_contract_witness :
    generateRecommendations
        (Except.ok (JsonResponse.mk [("user_history_recs", JsonValue.arr [])]))
        (V2State.init "chill")
      = generateRecommendations
          (Except.ok (JsonResponse.mk
            [("user_history_recs", JsonValue.arr []), ("extra", JsonValue.null)]))
          (V2State.init "chill") :=
  (recommend_request_contract "chill"
    (JsonResponse.mk [("user_history_recs", JsonValue.arr [])])
    (JsonResponse.mk
      [("user_history_recs", JsonValue.arr []), ("extra", JsonValue.null)])
    (V2State.init "chill") (by decide)).2.2

/-- C3 (counterexample): not every client consumer reads the response under
the keys `user_history_recs`/`new_recs`/`analysis` — the legacy
`RecommendationGrid` renders from `from_history`, so two responses that
agree on all three contract keys are rendered differently by it; and the
App.jsx `generateRecs` path, given a response carrying its lanes under the
contract keys but no `tracks` field, stores no track ids at all. -/
theorem response_keys_counterexample :
    (∀ k ∈ contractKeys,
        (JsonResponse.mk [("user_history_recs", JsonValue.arr [])]).get k
          = (JsonResponse.mk
              [("user_history_recs", JsonValue.arr []),
               ("from_history",
                 JsonValue.arr [Track.mk "x" "X" [] "" "" 0 0 0 false])]).get k)
      ∧ legacyFromHistory
          (JsonResponse.mk [("user_history_recs", JsonValue.arr [])])
        ≠ legacyFromHistory
            (JsonResponse.mk
              [("user_history_recs", JsonValue.arr []),
               ("from_history",
                 JsonValue.arr [Track.mk "x" "X" [] "" "" 0 0 0 false])])
      ∧ (generateRecs
          (Except.ok (JsonResponse.mk
            [("user_history_recs",
              JsonValue.arr [Track.mk "x" "X" [] "" "" 0 0 0 false]),
             ("new_recs", JsonValue.arr [])]))
          (AppState.mk "mood" "tok" false "" none [])).1.trackIds = [] := by
  refine ⟨by decide, by decide, by decide⟩

/-- Every id of a track kept by `filterNewById` avoids the seen set. -/
lemma filterNewById_id_not_seen (cs : List Track) :
    ∀ (seen : List String) (x : String),
      x ∈ (filterNewById seen cs).map (fun t => t.id) → x ∉ seen := by
  induction cs with
  | nil => intro seen x hx; simp [filterNewById] at hx
  | cons t ts ih =>
      intro seen x hx
      unfold filterNewById at hx
      by_cases h : t.id ∈ seen
      · rw [if_pos h] at hx
        exact ih seen x hx
      · rw [if_neg h] at hx
        simp only [List.map_cons, List.mem_cons] at hx
        rcases hx with rfl | hx
        · exact h
        · intro hxseen
          exact ih (t.id :: seen) x hx (List.mem_cons_of_mem _ hxseen)

/-- The ids kept by `filterNewById` contain no duplicates. -/
lemma filterNewById_nodup (cs : List Track) :
    ∀ seen : List String, ((filterNewById seen cs).map (fun t => t.id)).Nodup := by
  induction cs with
  | nil => intro seen; simp [filterNewById]
  | cons t ts ih =>
      intro seen
      unfold filterNewById
      by_cases h : t.id ∈ seen
      · rw [if_pos h]
        exact ih seen
      · rw [if_neg h]
        simp only [List.map_cons, List.nodup_cons]
        refine ⟨?_, ih _⟩
        intro hmem
        exact filterNewById_id_not_seen ts (t.id :: seen) t.id hmem
          (List.mem_cons_self _ _)

/-- `filterNewById` only keeps tracks of its input. -/
lemma filterNewById_subset (cs : List Track) :
    ∀ (seen : List String) (t : Track), t ∈ filterNewById seen cs → t ∈ cs := by
  induction cs with
  | nil => intro seen t ht; simp [filterNewById] at ht
  | cons c ts ih =>
      intro seen t ht
      unfold filterNewById at ht
      by_cases h : c.id ∈ seen
      · rw [if_pos h] at ht
        exact List.mem_cons_of_mem _ (ih seen t ht)
      · rw [if_neg h] at ht
        rcases List.mem_cons.mp ht with rfl | ht
        · exact List.mem_cons_self _ _
        · exact List.mem_cons_of_mem _ (ih _ t ht)

/-- C1: in every assembled RecommendationResult the history lane and the
discovery lane carry disjoint track-id sets, and within each lane no track
id occurs more than once. -/
theorem lanes_disjoint_and_nodup (historySample discoveryCandidates : List Track)
    (historyCap discoveryCap : ℕ) (a : Analysis) :
    (((assembleResult historySample discoveryCandidates historyCap discoveryCap
          a).user_history_recs.map (fun t => t.id)).Nodup)
      ∧ (((assembleResult historySample discoveryCandidates historyCap
            discoveryCap a).new_recs.map (fun t => t.id)).Nodup)
      ∧ ∀ x,
          x ∈ (assembleResult historySample discoveryCandidates historyCap
              discoveryCap a).user_history_recs.map (fun t => t.id) →
          x ∉ (assembleResult historySample discoveryCandidates historyCap
              discoveryCap a).new_recs.map (fun t => t.id) := by
  unfold assembleResult
  simp only
  refine ⟨?_, ?_, ?_⟩
  · rw [List.map_take]
    exact ((List.take_sublist _ _).nodup (filterNewById_nodup historySample []))
  · rw [List.map_take]
    exact ((List.take_sublist _ _).nodup
      (filterNewById_nodup discoveryCandidates _))
  · intro x hxh hxn
    have hxsample : x ∈ historySample.map (fun t => t.id) := by
      rw [List.map_take] at hxh
      have hx1 : x ∈ (filterNewById [] historySample).map (fun t => t.id) :=
        List.take_subset _ _ hxh
      obtain ⟨t, htmem, rfl⟩ := List.mem_map.mp hx1
      exact List.mem_map_of_mem _ (filterNewById_subset historySample [] t htmem)
    have hx2 : x ∈ (filterNewById (historySample.map (fun t => t.id))
        discoveryCandidates).map (fun t => t.id) := by
      rw [List.map_take] at hxn
      exact List.take_subset _ _ hxn
    exact filterNewById_id_not_seen discoveryCandidates _ x hx2 hxsample

end Moodify
